import Mathlib

/-!
Shallow embedding of the Launchman process supervision core (src/main.py):
port allocation, the liveness check, the process launcher and the process
terminator. OS behaviour (TCP probes, process polling, lsof lookups, signal
delivery, spawning) is modelled by an oracle structure `OS`; the global
`running_processes` dict is modelled as an association list from app id to
pid; the observable OS actions of each operation are returned as an event
trace.
-/

namespace Launchman

/-- Runtime configuration of an app. Mirrors the `runtime` dict in
src/main.py (`RuntimeInfo`): field `type` of the source is named `rtype`
here because `type` is a Lean keyword. `venv = some ""` models an empty
string, which is falsy in Python just like a missing venv. -/
structure RuntimeInfo where
  rtype : String
  command : String
  venv : Option String
deriving Repr, DecidableEq

/-- A registered app record, as the dicts stored in apps.json carry it.
Only the fields the supervision core reads are modelled. -/
structure App where
  id : String
  port : Int
  path : String
  runtime : RuntimeInfo
deriving Repr, DecidableEq

/-- Oracle for the OS facts the code consults. Each field fixes the outcome
of one kind of OS call:
`portInUse p` is the result of `is_port_in_use(p)` (the TCP connect probe);
`procAlive pid` is true when `proc.poll()` returns None for that pid;
`pidsOnPort p` is the pid list parsed from `lsof -ti :p`;
`termGroupOk pid` is true when `os.killpg(os.getpgid(pid), SIGTERM)` raises
no exception; `waitOk pid` is true when `proc.wait(timeout=5)` returns
within the timeout; `spawnResult` is the outcome of `subprocess.Popen`
(some fresh pid, or none on a spawn exception); `pathExists s` is
`Path(s).exists()`. -/
structure OS where
  portInUse : Int → Bool
  procAlive : Int → Bool
  pidsOnPort : Int → List Int
  termGroupOk : Int → Bool
  waitOk : Int → Bool
  spawnResult : Option Int
  pathExists : String → Bool

/-- Observable OS actions of the supervision operations. `probe p` is a TCP
connect attempt to 127.0.0.1:p; `spawn cmd cwd pid` is a successful Popen of
`cmd` with working directory `cwd` yielding `pid`; `sigTermGroup pid` and
`sigKillGroup pid` are killpg attempts (SIGTERM and SIGKILL) on the group of
`pid`; `waited pid t` is a `proc.wait(timeout=t)` call; `sigTermPid pid` is
a single-pid `os.kill(pid, SIGTERM)` attempt from kill_by_port. -/
inductive Event where
  | probe (port : Int)
  | spawn (cmd : String) (cwd : String) (pid : Int)
  | sigTermGroup (pid : Int)
  | sigKillGroup (pid : Int)
  | waited (pid : Int) (timeoutSecs : Int)
  | sigTermPid (pid : Int)
deriving Repr, DecidableEq

/-- The `running_processes` dict: app id to pid of the tracked Popen. -/
abbrev Table := List (String × Int)

/-- Dict lookup, `app_id in running_processes` / `running_processes[app_id]`. -/
def lookupTable (t : Table) (appId : String) : Option Int :=
  t.lookup appId

/-- Dict deletion, `del running_processes[app_id]`. -/
def eraseTable (t : Table) (appId : String) : Table :=
  t.filter (fun pr => pr.1 != appId)

/-- Dict assignment, `running_processes[app_id] = proc`. -/
def insertTable (t : Table) (appId : String) (pid : Int) : Table :=
  (appId, pid) :: eraseTable t appId

/-- Number of entries a table holds for one app id. -/
def countKey (t : Table) (appId : String) : Nat :=
  (t.filter (fun pr => pr.1 == appId)).length

/-- Embeds `get_used_ports` of src/main.py: the ports of all apps whose id
differs from `excludeId` (a set in Python; a list here, which agrees with
the set on membership and maximum). `excludeId = none` keeps every app,
since in Python a string never equals None. -/
def get_used_ports (apps : List App) (excludeId : Option String) : List Int :=
  (apps.filter (fun a => some a.id != excludeId)).map (fun a => a.port)

/-- Maximum of a list of integers, 0 on the empty list. Python `max` over a
nonempty set; the code only applies it to sets containing 8000. -/
def maxOfList : List Int → Int
  | [] => 0
  | x :: xs => xs.foldl max x

/-- Embeds `find_available_port` of src/main.py: `used` is the used-port
set plus the reserved launcher port 8000; return `preferred` when it is not
in `used`, else `max(used) + 1`. -/
def find_available_port (apps : List App) (preferred : Int)
    (excludeId : Option String) : Int :=
  let used : List Int := 8000 :: get_used_ports apps excludeId
  if preferred ∈ used then maxOfList used + 1 else preferred

/-- Embeds `is_port_in_use` of src/main.py: the outcome of the TCP connect
probe, supplied by the OS oracle. -/
def is_port_in_use (os : OS) (port : Int) : Bool :=
  os.portInUse port

/-- Embeds `kill_by_port` of src/main.py: ports at most 0 are skipped;
otherwise the pids lsof reports on the port each receive a SIGTERM attempt
(failures swallowed), and the call returns true exactly when lsof reported
at least one pid. Returns the result paired with the event trace. -/
def kill_by_port (os : OS) (port : Int) : Bool × List Event :=
  if port ≤ 0 then (false, [])
  else
    let pids := os.pidsOnPort port
    if pids.isEmpty then (false, [])
    else (true, pids.map Event.sigTermPid)

/-- Embeds `is_app_running` of src/main.py: a tracked pid that still polls
alive means running; a tracked pid that has exited is lazily evicted and
the check falls through to the port probe; with no tracked pid the result
is the port probe. Returns (result, updated table, events). -/
def is_app_running (os : OS) (t : Table) (appId : String) (port : Int) :
    Bool × Table × List Event :=
  match lookupTable t appId with
  | some pid =>
    if os.procAlive pid then (true, t, [])
    else (is_port_in_use os port, eraseTable t appId, [Event.probe port])
  | none => (is_port_in_use os port, t, [Event.probe port])

/-- Embeds the command-rewriting block of `start_app_process`: the resolved
venv interpreter path, `venv` taken as is when absolute, else joined under
the app path, with `/bin/python` appended. -/
def venvPythonBin (path venv : String) : String :=
  (if venv.startsWith "/" then venv else path ++ "/" ++ venv) ++ "/bin/python"

/-- Checks whether the first list starts the second one. -/
def leadsList : List Char → List Char → Bool
  | [], _ => true
  | _ :: _, [] => false
  | a :: as, b :: bs => a == b && leadsList as bs

/-- Python `str.replace(old, new, 1)` on character lists, for nonempty
`old`: the leftmost occurrence of `old` is replaced by `new`. -/
def replaceFirstL (old new : List Char) : List Char → List Char
  | [] => []
  | c :: rest =>
    if leadsList old (c :: rest) then new ++ (c :: rest).drop old.length
    else c :: replaceFirstL old new rest

/-- Python `s.replace(old, new, 1)` on strings. -/
def replaceFirst (s old new : String) : String :=
  String.mk (replaceFirstL old.data new.data s.data)

/-- Embeds the command construction of `start_app_process`: when the
runtime type is python and a venv is set (nonempty, since Python tests the
string for truthiness) and the resolved venv interpreter binary exists, the
first occurrence of the text "python " in the command is replaced by the
interpreter path followed by a space; in every other case the configured
command is used unchanged. -/
def buildStartCommand (os : OS) (a : App) : String :=
  match a.runtime.venv with
  | some v =>
    if a.runtime.rtype = "python" ∧ v ≠ "" then
      let bin := venvPythonBin a.path v
      if os.pathExists bin then
        replaceFirst a.runtime.command "python " (bin ++ " ")
      else a.runtime.command
    else a.runtime.command
  | none => a.runtime.command

/-- Embeds `start_app_process` of src/main.py: fail on an empty command or
path; no-op success when `is_app_running` already reports the app running
(keeping the lazy table cleanup that check performed); otherwise build the
command and spawn it, tracking the new pid on success and failing without
a table change on a spawn exception. -/
def start_app_process (os : OS) (t : Table) (a : App) :
    Bool × Table × List Event :=
  if a.runtime.command = "" ∨ a.path = "" then (false, t, [])
  else
    let r := is_app_running os t a.id a.port
    if r.1 then (true, r.2.1, r.2.2)
    else
      match os.spawnResult with
      | some pid =>
        (true, insertTable r.2.1 a.id pid,
          r.2.2 ++ [Event.spawn (buildStartCommand os a) a.path pid])
      | none => (false, r.2.1, r.2.2)

/-- Embeds `stop_app_process` of src/main.py. Tracked path: attempt killpg
SIGTERM on the group; when that raises, or the bounded `wait(timeout=5)`
does, attempt killpg SIGKILL with any failure swallowed; evict the handle
and return true. Untracked path: fall back to `kill_by_port` when the port
is positive, else return false with no action. -/
def stop_app_process (os : OS) (t : Table) (appId : String) (port : Int) :
    Bool × Table × List Event :=
  match lookupTable t appId with
  | some pid =>
    let evs : List Event :=
      if os.termGroupOk pid then
        if os.waitOk pid then
          [Event.sigTermGroup pid, Event.waited pid 5]
        else
          [Event.sigTermGroup pid, Event.waited pid 5, Event.sigKillGroup pid]
      else [Event.sigTermGroup pid, Event.sigKillGroup pid]
    (true, eraseTable t appId, evs)
  | none =>
    if 0 < port then
      let r := kill_by_port os port
      (r.1, t, r.2)
    else (false, t, [])

/-! Helper lemmas about the integer-list maximum. -/

theorem le_foldl_max (xs : List Int) (a : Int) : a ≤ xs.foldl max a := by
  induction xs generalizing a with
  | nil => simp
  | cons b bs ih =>
    have h1 : a ≤ max a b := le_max_left a b
    have h2 : max a b ≤ bs.foldl max (max a b) := ih (max a b)
    simpa [List.foldl_cons] using le_trans h1 h2

theorem mem_le_foldl_max (xs : List Int) (a y : Int) (hy : y ∈ xs) :
    y ≤ xs.foldl max a := by
  induction xs generalizing a with
  | nil => cases hy
  | cons b bs ih =>
    rcases List.mem_cons.mp hy with h | h
    · subst h
      have h1 : y ≤ max a y := le_max_right a y
      have h2 : max a y ≤ bs.foldl max (max a y) := le_foldl_max bs (max a y)
      simpa [List.foldl_cons] using le_trans h1 h2
    · simpa [List.foldl_cons] using ih (max a b) h

theorem le_maxOfList (l : List Int) (y : Int) (hy : y ∈ l) : y ≤ maxOfList l := by
  cases l with
  | nil => cases hy
  | cons x xs =>
    rcases List.mem_cons.mp hy with h | h
    · subst h; exact le_foldl_max xs y
    · exact mem_le_foldl_max xs x y h

/-! Helper lemmas about the handle table. -/

theorem lookup_eraseTable (t : Table) (appId : String) :
    lookupTable (eraseTable t appId) appId = none := by
  induction t with
  | nil => rfl
  | cons hd tl ih =>
    obtain ⟨k, v⟩ := hd
    simp only [lookupTable, eraseTable] at ih ⊢
    rw [List.filter_cons]
    by_cases hh : k = appId
    · subst hh
      simpa using ih
    · have hb1 : (((k, v).1 != appId) = true) := by simp [hh]
      rw [if_pos hb1]
      have hb2 : (appId == k) = false := beq_eq_false_iff_ne.mpr (Ne.symm hh)
      simp only [List.lookup, hb2]
      exact ih

theorem countKey_eraseTable (t : Table) (appId : String) :
    countKey (eraseTable t appId) appId = 0 := by
  induction t with
  | nil => rfl
  | cons hd tl ih =>
    by_cases hh : hd.1 = appId
    · simp only [eraseTable, List.filter_cons] at ih ⊢
      simp [hh, ih]
    · simp only [countKey, eraseTable, List.filter_cons] at ih ⊢
      simp [hh, ih]

theorem countKey_insertTable (t : Table) (appId : String) (pid : Int) :
    countKey (insertTable t appId pid) appId = 1 := by
  have h := countKey_eraseTable t appId
  simp only [countKey] at h ⊢
  simp [insertTable, List.filter_cons, h]

/-- C3: find_available_port returns the preferred port unchanged when it is
neither one of the existing used ports nor the reserved dashboard port
8000, and otherwise returns the maximum of the used set (the existing
ports together with 8000) plus 1. -/
theorem c3_preferred_or_max_plus_one (apps : List App) (preferred : Int)
    (excludeId : Option String) :
    find_available_port apps preferred excludeId =
      if preferred = 8000 ∨ preferred ∈ get_used_ports apps excludeId then
        maxOfList (8000 :: get_used_ports apps excludeId) + 1
      else preferred := by
  by_cases h : preferred = 8000 ∨ preferred ∈ get_used_ports apps excludeId
  · simp [find_available_port, List.mem_cons, h]
  · simp [find_available_port, List.mem_cons, h]

/-- C7: find_available_port is a total function, so allocation always
returns a value, and the returned port is never the reserved dashboard
port 8000 and never a member of the existing used ports. -/
theorem c7_allocation_avoids_used (apps : List App) (preferred : Int)
    (excludeId : Option String) :
    find_available_port apps preferred excludeId ≠ 8000 ∧
    find_available_port apps preferred excludeId ∉
      get_used_ports apps excludeId := by
  by_cases h : preferred ∈ 8000 :: get_used_ports apps excludeId
  · have heq : find_available_port apps preferred excludeId =
        maxOfList (8000 :: get_used_ports apps excludeId) + 1 := by
      simp [find_available_port, h]
    have h8 : (8000 : Int) ≤ maxOfList (8000 :: get_used_ports apps excludeId) :=
      le_maxOfList _ _ (List.mem_cons_self _ _)
    constructor
    · rw [heq]; omega
    · intro hmem
      rw [heq] at hmem
      have hle := le_maxOfList (8000 :: get_used_ports apps excludeId) _
        (List.mem_cons_of_mem _ hmem)
      omega
  · have heq : find_available_port apps preferred excludeId = preferred := by
      simp [find_available_port, h]
    rw [heq]
    constructor
    · intro h8
      exact h (h8 ▸ List.mem_cons_self _ _)
    · intro hmem
      exact h (List.mem_cons_of_mem _ hmem)

/-- C10: an app registered with port 0 participates in the used-port set,
so allocating for a new app with preferred port 0 over a registry that
already holds a port-0 app does not return 0 but the maximum of the used
set plus 1. -/
theorem c10_port_zero_counts (apps : List App) (a : App) (ha : a ∈ apps)
    (hp : a.port = 0) :
    find_available_port apps 0 none =
      maxOfList (8000 :: get_used_ports apps none) + 1 ∧
    find_available_port apps 0 none ≠ 0 := by
  have hmem : (0 : Int) ∈ get_used_ports apps none := by
    unfold get_used_ports
    exact List.mem_map.mpr ⟨a, List.mem_filter.mpr ⟨ha, by simp⟩, hp⟩
  have h : (0 : Int) ∈ 8000 :: get_used_ports apps none :=
    List.mem_cons_of_mem _ hmem
  have heq : find_available_port apps 0 none =
      maxOfList (8000 :: get_used_ports apps none) + 1 := by
    simp [find_available_port, h]
  refine ⟨heq, ?_⟩
  have h8 : (8000 : Int) ≤ maxOfList (8000 :: get_used_ports apps none) :=
    le_maxOfList _ _ (List.mem_cons_self _ _)
  rw [heq]; omega

/-- A CLI-only app holding port 0, used as the concrete input of the
witness for C10. -/
def appCli : App :=
  { id := "cli0", port := 0, path := "/srv/cli",
    runtime := { rtype := "python", command := "python tool.py", venv := none } }

/-- Witness for C10 at the one-app registry holding a port-0 app. -/
theorem c10_witness :
    find_available_port [appCli] 0 none =
      maxOfList (8000 :: get_used_ports [appCli] none) + 1 ∧
    find_available_port [appCli] 0 none ≠ 0 :=
  c10_port_zero_counts [appCli] appCli (List.mem_cons_self _ _) rfl

/-! Concrete OS oracles and app records used by witnesses and
counterexamples. -/

/-- An OS on which no port is in use, no process is alive, lsof finds
nothing, signalling works and spawning fails. -/
def osIdle : OS :=
  { portInUse := fun _ => false, procAlive := fun _ => false,
    pidsOnPort := fun _ => [], termGroupOk := fun _ => true,
    waitOk := fun _ => true, spawnResult := none,
    pathExists := fun _ => false }

/-- An OS whose TCP probe reports every port in use. -/
def osBusy : OS :=
  { portInUse := fun _ => true, procAlive := fun _ => false,
    pidsOnPort := fun _ => [], termGroupOk := fun _ => true,
    waitOk := fun _ => true, spawnResult := none,
    pathExists := fun _ => false }

/-- An OS on which spawning yields pid 42, every process polls alive, no
port probe succeeds, and signalling and waiting work. -/
def osSpawn : OS :=
  { portInUse := fun _ => false, procAlive := fun _ => true,
    pidsOnPort := fun _ => [], termGroupOk := fun _ => true,
    waitOk := fun _ => true, spawnResult := some 42,
    pathExists := fun _ => false }

/-- An OS on which lsof reports pids 11 and 12 on port 3000 and nothing
elsewhere. -/
def osLsof : OS :=
  { portInUse := fun _ => false, procAlive := fun _ => false,
    pidsOnPort := fun p => if p = 3000 then [11, 12] else [],
    termGroupOk := fun _ => true, waitOk := fun _ => true,
    spawnResult := none, pathExists := fun _ => false }

/-- An app whose command is empty, used by the C9 witness. -/
def appNoCmd : App :=
  { id := "x1", port := 3000, path := "/srv/x",
    runtime := { rtype := "static", command := "", venv := none } }

/-- C9: starting an app whose command or path is empty fails, leaves the
handle table unchanged, so no handle is registered for the app id, and
performs no OS action at all. -/
theorem c9_invalid_config (os : OS) (t : Table) (a : App)
    (h : a.runtime.command = "" ∨ a.path = "") :
    (start_app_process os t a).1 = false ∧
    (start_app_process os t a).2.1 = t ∧
    (start_app_process os t a).2.2 = ([] : List Event) := by
  unfold start_app_process
  rw [if_pos h]
  exact ⟨rfl, rfl, rfl⟩

/-- Witness for C9 at an app with an empty command over the empty table. -/
theorem c9_witness :
    (start_app_process osIdle [] appNoCmd).1 = false ∧
    (start_app_process osIdle [] appNoCmd).2.1 = ([] : Table) ∧
    (start_app_process osIdle [] appNoCmd).2.2 = ([] : List Event) :=
  c9_invalid_config osIdle [] appNoCmd (Or.inl rfl)

/-- C2: stopping an app id with a tracked handle attempts the graceful
SIGTERM on the whole process group of the tracked pid, waits on the process
with the bounded 5 second timeout whenever the SIGTERM attempt raised no
exception, attempts the forceful SIGKILL on the group exactly when the
graceful attempt raised or the wait saw no exit within the timeout (that
kill attempt itself being swallowed), evicts the handle unconditionally and
returns true, also when the tracked process had already exited, which is
the case of a failing killpg. -/
theorem c2_stop_tracked (os : OS) (t : Table) (appId : String)
    (port pid : Int) (h : lookupTable t appId = some pid) :
    (stop_app_process os t appId port).1 = true ∧
    (stop_app_process os t appId port).2.1 = eraseTable t appId ∧
    lookupTable (stop_app_process os t appId port).2.1 appId = none ∧
    Event.sigTermGroup pid ∈ (stop_app_process os t appId port).2.2 ∧
    (os.termGroupOk pid = true →
      Event.waited pid 5 ∈ (stop_app_process os t appId port).2.2) ∧
    (Event.sigKillGroup pid ∈ (stop_app_process os t appId port).2.2 ↔
      ¬(os.termGroupOk pid = true ∧ os.waitOk pid = true)) := by
  simp only [stop_app_process, h]
  by_cases h1 : os.termGroupOk pid <;> by_cases h2 : os.waitOk pid <;>
    simp [h1, h2, lookup_eraseTable]

/-- Witness for C2 at a table tracking pid 7 for id web, over an OS whose
signalling and waiting succeed. -/
theorem c2_witness :
    (stop_app_process osSpawn [("web", 7)] "web" 3000).1 = true ∧
    (stop_app_process osSpawn [("web", 7)] "web" 3000).2.1 =
      eraseTable [("web", 7)] "web" ∧
    lookupTable (stop_app_process osSpawn [("web", 7)] "web" 3000).2.1 "web" =
      none ∧
    Event.sigTermGroup 7 ∈ (stop_app_process osSpawn [("web", 7)] "web" 3000).2.2 ∧
    (osSpawn.termGroupOk 7 = true →
      Event.waited 7 5 ∈ (stop_app_process osSpawn [("web", 7)] "web" 3000).2.2) ∧
    (Event.sigKillGroup 7 ∈ (stop_app_process osSpawn [("web", 7)] "web" 3000).2.2 ↔
      ¬(osSpawn.termGroupOk 7 = true ∧ osSpawn.waitOk 7 = true)) :=
  c2_stop_tracked osSpawn [("web", 7)] "web" 3000 7 (by rfl)

/-- C6: stopping an id with no tracked handle: for a positive port the call
returns true exactly when lsof reported at least one pid on the port, its
trace is one SIGTERM attempt per reported pid and empty when none was
reported, and a group kill never occurs; for port 0 the call returns false,
leaves the table unchanged and performs no OS action. -/
theorem c6_stop_untracked (os : OS) (t : Table) (appId : String) (port : Int)
    (h : lookupTable t appId = none) :
    (0 < port →
      ((stop_app_process os t appId port).1 =
          !(os.pidsOnPort port).isEmpty ∧
        (stop_app_process os t appId port).2.1 = t ∧
        (stop_app_process os t appId port).2.2 =
          (if (os.pidsOnPort port).isEmpty then []
           else (os.pidsOnPort port).map Event.sigTermPid) ∧
        (∀ p : Int,
          Event.sigKillGroup p ∉ (stop_app_process os t appId port).2.2))) ∧
    (port = 0 →
      ((stop_app_process os t appId port).1 = false ∧
        (stop_app_process os t appId port).2.1 = t ∧
        (stop_app_process os t appId port).2.2 = ([] : List Event))) := by
  constructor
  · intro hp
    have hle : ¬(port ≤ 0) := by omega
    simp only [stop_app_process, h, if_pos hp, kill_by_port, if_neg hle]
    by_cases he : (os.pidsOnPort port).isEmpty
    · simp [he]
    · simp [he]
  · intro hp0
    subst hp0
    simp [stop_app_process, h]

/-- Witness for C6 at the empty table, port 3000 and an OS on which lsof
reports pids 11 and 12 there. -/
theorem c6_witness :
    ((0 : Int) < 3000 →
      ((stop_app_process osLsof [] "a" 3000).1 =
          !(osLsof.pidsOnPort 3000).isEmpty ∧
        (stop_app_process osLsof [] "a" 3000).2.1 = ([] : Table) ∧
        (stop_app_process osLsof [] "a" 3000).2.2 =
          (if (osLsof.pidsOnPort 3000).isEmpty then []
           else (osLsof.pidsOnPort 3000).map Event.sigTermPid) ∧
        (∀ p : Int,
          Event.sigKillGroup p ∉ (stop_app_process osLsof [] "a" 3000).2.2))) ∧
    ((3000 : Int) = 0 →
      ((stop_app_process osLsof [] "a" 3000).1 = false ∧
        (stop_app_process osLsof [] "a" 3000).2.1 = ([] : Table) ∧
        (stop_app_process osLsof [] "a" 3000).2.2 = ([] : List Event))) :=
  c6_stop_untracked osLsof [] "a" 3000 rfl

/-- C1 counterexample: is_app_running has no port-0 short-circuit, so with
no tracked handle it returns the TCP probe result even for port 0: over an
OS whose probe reports every port in use, the check on port 0 returns true,
refuting the claim that false is returned regardless of the probe
outcome. -/
theorem c1_counterexample :
    (is_app_running osBusy [] "a" 0).1 = true := rfl

/-- C1 amended: with no tracked handle, is_app_running on port 0 performs
the TCP probe and returns its result: it returns false exactly when the OS
probe reports port 0 not in use, which a real connect to 127.0.0.1:0 does,
but the result is decided by the probe, not short-circuited. -/
theorem c1_amended_probe (os : OS) (t : Table) (appId : String)
    (h : lookupTable t appId = none) :
    (is_app_running os t appId 0).1 = os.portInUse 0 ∧
    (is_app_running os t appId 0).2.2 = [Event.probe 0] ∧
    ((is_app_running os t appId 0).1 = false ↔ os.portInUse 0 = false) := by
  simp [is_app_running, h, is_port_in_use]

/-- Witness for the amended C1 at the empty table over the idle OS. -/
theorem c1_amended_witness :
    (is_app_running osIdle [] "a" 0).1 = osIdle.portInUse 0 ∧
    (is_app_running osIdle [] "a" 0).2.2 = [Event.probe 0] ∧
    ((is_app_running osIdle [] "a" 0).1 = false ↔
      osIdle.portInUse 0 = false) :=
  c1_amended_probe osIdle [] "a" rfl

/-- C5 counterexample: stopping the tracked app succeeds and evicts the
handle, but the subsequent is_app_running falls back to the TCP probe, so
over an OS whose probe still reports the port in use the check returns
true, refuting the claim that it returns false after every successful
stop. -/
theorem c5_counterexample :
    (stop_app_process osBusy [("a", 7)] "a" 3000).1 = true ∧
    lookupTable (stop_app_process osBusy [("a", 7)] "a" 3000).2.1 "a" =
      none ∧
    (is_app_running osBusy
      (stop_app_process osBusy [("a", 7)] "a" 3000).2.1 "a" 3000).1 = true :=
  ⟨rfl, rfl, rfl⟩

/-- C5 amended: after a successful stop on a tracked app no handle remains
in the table, and the subsequent is_app_running returns the TCP probe
result for the port: false exactly when the OS reports the port no longer
in use, in particular whenever the termination actually freed it. -/
theorem c5_amended_stop_then_probe (os : OS) (t : Table) (appId : String)
    (port pid : Int) (h : lookupTable t appId = some pid) :
    (stop_app_process os t appId port).1 = true ∧
    lookupTable (stop_app_process os t appId port).2.1 appId = none ∧
    (is_app_running os
      (stop_app_process os t appId port).2.1 appId port).1 =
      os.portInUse port ∧
    ((is_app_running os
      (stop_app_process os t appId port).2.1 appId port).1 = false ↔
      os.portInUse port = false) := by
  have h2 : (stop_app_process os t appId port).2.1 = eraseTable t appId := by
    simp [stop_app_process, h]
  have h1 : (stop_app_process os t appId port).1 = true := by
    simp [stop_app_process, h]
  have h3 := lookup_eraseTable t appId
  refine ⟨h1, by rw [h2]; exact h3, ?_, ?_⟩
  · rw [h2]
    simp [is_app_running, h3, is_port_in_use]
  · rw [h2]
    simp [is_app_running, h3, is_port_in_use]

/-- Witness for the amended C5 at a table tracking pid 7, over the idle
OS whose probe reports the port free after the stop. -/
theorem c5_amended_witness :
    (stop_app_process osIdle [("a", 7)] "a" 3000).1 = true ∧
    lookupTable (stop_app_process osIdle [("a", 7)] "a" 3000).2.1 "a" =
      none ∧
    (is_app_running osIdle
      (stop_app_process osIdle [("a", 7)] "a" 3000).2.1 "a" 3000).1 =
      osIdle.portInUse 3000 ∧
    ((is_app_running osIdle
      (stop_app_process osIdle [("a", 7)] "a" 3000).2.1 "a" 3000).1 =
      false ↔ osIdle.portInUse 3000 = false) :=
  c5_amended_stop_then_probe osIdle [("a", 7)] "a" 3000 7 (by rfl)

/-- A plain python app with no venv, used by the C4 witness. -/
def appWeb : App :=
  { id := "web1", port := 3000, path := "/srv/web",
    runtime := { rtype := "python", command := "python app.py",
                 venv := none } }

/-- C4: starting a valid untracked app spawns once and tracks exactly one
handle; starting it again while the spawned process polls alive observes
the app as running, succeeds as a no-op, changes no table state and spawns
nothing, so exactly one handle for the id exists throughout. -/
theorem c4_double_start (os : OS) (t : Table) (a : App) (p : Int)
    (hc : a.runtime.command ≠ "") (hp : a.path ≠ "")
    (h0 : lookupTable t a.id = none)
    (hprobe : os.portInUse a.port = false)
    (hs : os.spawnResult = some p)
    (halive : os.procAlive p = true) :
    (start_app_process os t a).1 = true ∧
    lookupTable (start_app_process os t a).2.1 a.id = some p ∧
    countKey (start_app_process os t a).2.1 a.id = 1 ∧
    (start_app_process os (start_app_process os t a).2.1 a).1 = true ∧
    (start_app_process os (start_app_process os t a).2.1 a).2.1 =
      (start_app_process os t a).2.1 ∧
    (∀ c cwd q, Event.spawn c cwd q ∉
      (start_app_process os (start_app_process os t a).2.1 a).2.2) := by
  have hrun1 : is_app_running os t a.id a.port =
      (false, t, [Event.probe a.port]) := by
    simp [is_app_running, h0, is_port_in_use, hprobe]
  have hstart1 : start_app_process os t a =
      (true, insertTable t a.id p,
        [Event.probe a.port,
         Event.spawn (buildStartCommand os a) a.path p]) := by
    simp [start_app_process, hc, hp, hrun1, hs]
  have hlook1 : lookupTable (insertTable t a.id p) a.id = some p := by
    simp [insertTable, lookupTable, List.lookup]
  have hrun2 : is_app_running os (insertTable t a.id p) a.id a.port =
      (true, insertTable t a.id p, []) := by
    simp [is_app_running, hlook1, halive]
  have hstart2 : start_app_process os (insertTable t a.id p) a =
      (true, insertTable t a.id p, []) := by
    simp [start_app_process, hc, hp, hrun2]
  refine ⟨?_, ?_, ?_, ?_, ?_, ?_⟩ <;>
    simp [hstart1, hstart2, hlook1, countKey_insertTable]

/-- Witness for C4: the plain python app started twice from the empty
table over the OS that spawns pid 42 and keeps it alive. -/
theorem c4_witness :
    (start_app_process osSpawn [] appWeb).1 = true ∧
    lookupTable (start_app_process osSpawn [] appWeb).2.1 appWeb.id =
      some 42 ∧
    countKey (start_app_process osSpawn [] appWeb).2.1 appWeb.id = 1 ∧
    (start_app_process osSpawn
      (start_app_process osSpawn [] appWeb).2.1 appWeb).1 = true ∧
    (start_app_process osSpawn
      (start_app_process osSpawn [] appWeb).2.1 appWeb).2.1 =
      (start_app_process osSpawn [] appWeb).2.1 ∧
    (∀ c cwd q, Event.spawn c cwd q ∉
      (start_app_process osSpawn
        (start_app_process osSpawn [] appWeb).2.1 appWeb).2.2) :=
  c4_double_start osSpawn [] appWeb 42 (by decide) (by decide) rfl rfl rfl
    rfl

/-- A python app with a relative venv, used by the C8 witness. -/
def appVenv : App :=
  { id := "py1", port := 5000, path := "/srv/py",
    runtime := { rtype := "python", command := "python app.py",
                 venv := some "venv" } }

/-- An OS on which exactly the resolved venv interpreter of appVenv
exists, spawning yields pid 43 and nothing is running. -/
def osVenv : OS :=
  { portInUse := fun _ => false, procAlive := fun _ => false,
    pidsOnPort := fun _ => [],
    termGroupOk := fun _ => true, waitOk := fun _ => true,
    spawnResult := some 43,
    pathExists := fun s => s == "/srv/py/venv/bin/python" }

/-- C8: for a python app with a nonempty venv, the launched command is the
configured command with the first "python " occurrence replaced by the
resolved venv interpreter path exactly when that binary exists, the venv
resolving to itself when absolute and under the app path otherwise; when
the binary does not exist the original command is launched unchanged, and
in either case a successful spawn makes the start succeed. -/
theorem c8_venv_rewrite (os : OS) (t : Table) (a : App) (v : String)
    (p : Int) (hty : a.runtime.rtype = "python")
    (hv : a.runtime.venv = some v) (hne : v ≠ "")
    (hc : a.runtime.command ≠ "") (hp : a.path ≠ "")
    (hrun : (is_app_running os t a.id a.port).1 = false)
    (hs : os.spawnResult = some p) :
    buildStartCommand os a =
      (if os.pathExists (venvPythonBin a.path v) then
        replaceFirst a.runtime.command "python " (venvPythonBin a.path v ++ " ")
      else a.runtime.command) ∧
    venvPythonBin a.path v =
      (if v.startsWith "/" then v else a.path ++ "/" ++ v) ++ "/bin/python" ∧
    (start_app_process os t a).1 = true ∧
    Event.spawn (buildStartCommand os a) a.path p ∈
      (start_app_process os t a).2.2 := by
  refine ⟨?_, rfl, ?_, ?_⟩
  · simp [buildStartCommand, hv, hty, hne]
  · simp [start_app_process, hc, hp, hrun, hs]
  · simp [start_app_process, hc, hp, hrun, hs]

/-- Witness for C8 at the relative-venv app over the OS on which the
resolved interpreter exists. -/
theorem c8_witness :
    buildStartCommand osVenv appVenv =
      (if osVenv.pathExists (venvPythonBin appVenv.path "venv") then
        replaceFirst appVenv.runtime.command "python "
          (venvPythonBin appVenv.path "venv" ++ " ")
      else appVenv.runtime.command) ∧
    venvPythonBin appVenv.path "venv" =
      (if "venv".startsWith "/" then "venv"
       else appVenv.path ++ "/" ++ "venv") ++ "/bin/python" ∧
    (start_app_process osVenv [] appVenv).1 = true ∧
    Event.spawn (buildStartCommand osVenv appVenv) appVenv.path 43 ∈
      (start_app_process osVenv [] appVenv).2.2 :=
  c8_venv_rewrite osVenv [] appVenv "venv" 43 rfl rfl (by decide)
    (by decide) (by decide) (by rfl) rfl

end Launchman
